import Mathlib

/-!
# doca_compress: decompress_deflate sample and the compress CLI entry point

A shallow embedding of

* `src/decompress_deflate/decompress_deflate_sample.cc` (`decompress_deflate`)
* `src/compress_deflate/compress_deflate_main.cc` (`main`)

Both functions are straight-line sequences of calls into the DOCA SDK and the C
library, wired together with `goto` labels.  Every external call is an oracle:
its return value is read from an environment record, and the call is appended
to a trace together with its arguments and its return value.  A label of the C
code is a Lean function that performs the statements from that label to the end
of the C function (fall-through included).
-/

/-- Modelled from the spec: the SDK status type `doca_error_t` of `doca_error.h`,
which is not among the sources: one success value and a family of error kinds,
named after enumerators of the SDK.  The sources only ever name `DOCA_SUCCESS`
and `DOCA_ERROR_NO_MEMORY`; no proof depends on which other kinds exist. -/
inductive doca_error_t
  | DOCA_SUCCESS
  | DOCA_ERROR_UNKNOWN
  | DOCA_ERROR_NOT_PERMITTED
  | DOCA_ERROR_IN_USE
  | DOCA_ERROR_NOT_SUPPORTED
  | DOCA_ERROR_AGAIN
  | DOCA_ERROR_INVALID_VALUE
  | DOCA_ERROR_NO_MEMORY
  | DOCA_ERROR_INITIALIZATION
  | DOCA_ERROR_TIME_OUT
  | DOCA_ERROR_SHUTDOWN
  | DOCA_ERROR_NOT_FOUND
  | DOCA_ERROR_IO_FAILED
  | DOCA_ERROR_BAD_STATE
  | DOCA_ERROR_DRIVER
  | DOCA_ERROR_UNEXPECTED
  | DOCA_ERROR_FULL
  | DOCA_ERROR_EMPTY
  | DOCA_ERROR_TOO_BIG
  deriving DecidableEq, Repr

open doca_error_t

/-- Modelled from the spec: the SDK helper `DOCA_ERROR_PROPAGATE(r, t)` of
`doca_error.h`, which is not among the sources.  It is the StatusAccumulator
update: `r` keeps an already-set failure, and is set to `t` otherwise.  The
value is the new content of `r`. -/
def DOCA_ERROR_PROPAGATE (r t : doca_error_t) : doca_error_t :=
  if r = DOCA_SUCCESS then t else r

namespace Decompress

/-- The two host memory blocks of the sample: the input bytes of the caller and the
scratch block obtained from `calloc`. -/
inductive Ptr
  | file_data
  | dst_buffer
  deriving DecidableEq, Repr

/-- The two memory maps held in `resources.state`. -/
inductive Mmap
  | src_mmap
  | dst_mmap
  deriving DecidableEq, Repr

/-- The two buffer handles of the sample. -/
inductive Handle
  | src_doca_buf
  | dst_doca_buf
  deriving DecidableEq, Repr

/-- One external call made by `decompress_deflate`, with the arguments that
matter and the value it returned. -/
inductive Event
  | fopen (ok : Bool)
  | allocate_compress_resources (r : doca_error_t)
  | get_max_buf_size (r : doca_error_t) (max_buf_size : Nat)
  | doca_ctx_start (r : doca_error_t)
  | calloc (size : Nat) (ok : Bool)
  | doca_mmap_set_memrange (m : Mmap) (addr : Ptr) (len : Nat) (r : doca_error_t)
  | doca_mmap_start (m : Mmap) (r : doca_error_t)
  | doca_buf_inventory_buf_get_by_addr (m : Mmap) (addr : Ptr) (len : Nat)
      (h : Handle) (r : doca_error_t)
  | doca_buf_set_data (h : Handle) (addr : Ptr) (len : Nat) (r : doca_error_t)
  | submit_decompress_deflate_task (src dst : Handle) (checksum : Bool)
      (r : doca_error_t)
  | doca_buf_get_head (h : Handle)
  | doca_buf_get_data_len (h : Handle) (data_len : Nat)
  | fwrite (count : Nat)
  | doca_buf_dec_refcount (h : Handle) (r : doca_error_t)
  | free (p : Ptr)
  | destroy_compress_resources (r : doca_error_t)
  | fclose
  deriving DecidableEq, Repr

/-- The inputs of one call of `decompress_deflate` and the outcome of every
external call it can make.  Each call site runs at most once, so one outcome
per call site covers every behaviour of the callees. -/
structure Env where
  /-- Argument `file_size`. -/
  file_size : Nat
  /-- Field `cfg->output_checksum`. -/
  output_checksum : Bool
  /-- Whether `fopen` returns a non-NULL stream (line 57). -/
  fopen_ok : Bool
  /-- Result of `allocate_compress_resources` (line 67). -/
  allocate : doca_error_t
  /-- Result of the max-buffer-size query (line 75). -/
  get_max : doca_error_t
  /-- Value the query stores in `max_buf_size`. -/
  max_buf_size : Nat
  /-- Result of `doca_ctx_start` (line 87). -/
  ctx_start : doca_error_t
  /-- Whether `calloc` returns a non-NULL block (line 93). -/
  calloc_ok : Bool
  /-- Result of `doca_mmap_set_memrange` on `dst_mmap` (line 101). -/
  dst_set_memrange : doca_error_t
  /-- Result of `doca_mmap_start` on `dst_mmap` (line 107). -/
  dst_mmap_start : doca_error_t
  /-- Result of `doca_mmap_set_memrange` on `src_mmap` (line 113). -/
  src_set_memrange : doca_error_t
  /-- Result of `doca_mmap_start` on `src_mmap` (line 119). -/
  src_mmap_start : doca_error_t
  /-- Result of acquiring the source handle (line 126). -/
  src_buf_get : doca_error_t
  /-- Result of acquiring the destination handle (line 133). -/
  dst_buf_get : doca_error_t
  /-- Result of `doca_buf_set_data` (line 140). -/
  set_data : doca_error_t
  /-- Result of `submit_decompress_deflate_task` (lines 148 and 154). -/
  submit : doca_error_t
  /-- Length reported by `doca_buf_get_data_len` (line 165). -/
  data_len : Nat
  /-- Result of `doca_buf_dec_refcount` on the destination handle (line 172). -/
  dec_dst : doca_error_t
  /-- Result of `doca_buf_dec_refcount` on the source handle (line 178). -/
  dec_src : doca_error_t
  /-- Result of `destroy_compress_resources` (line 188). -/
  destroy : doca_error_t
  deriving DecidableEq, Repr

/-- What a call of `decompress_deflate` leaves behind: the returned status and
the external calls made, in program order. -/
structure Out where
  result : doca_error_t
  trace : List Event
  deriving DecidableEq, Repr

/-- Label `close_file` (lines 193-196). -/
def close_file (_env : Env) (result : doca_error_t) (tr : List Event) : Out :=
  let tr := tr ++ [Event.fclose]
  ⟨result, tr⟩

/-- Label `destroy_resources` (lines 185-192), falling through to `close_file`. -/
def destroy_resources (env : Env) (result : doca_error_t) (tr : List Event) : Out :=
  let tmp_result := env.destroy
  let tr := tr ++ [Event.destroy_compress_resources tmp_result]
  let result :=
    if tmp_result ≠ DOCA_SUCCESS then DOCA_ERROR_PROPAGATE result tmp_result else result
  close_file env result tr

/-- Label `free_dst_buf` (lines 183-184), falling through to `destroy_resources`. -/
def free_dst_buf (env : Env) (result : doca_error_t) (tr : List Event) : Out :=
  let tr := tr ++ [Event.free Ptr.dst_buffer]
  destroy_resources env result tr

/-- Label `destroy_src_buf` (lines 177-182), falling through to `free_dst_buf`. -/
def destroy_src_buf (env : Env) (result : doca_error_t) (tr : List Event) : Out :=
  let tmp_result := env.dec_src
  let tr := tr ++ [Event.doca_buf_dec_refcount Handle.src_doca_buf tmp_result]
  let result :=
    if tmp_result ≠ DOCA_SUCCESS then DOCA_ERROR_PROPAGATE result tmp_result else result
  free_dst_buf env result tr

/-- Label `destroy_dst_buf` (lines 170-176), falling through to `destroy_src_buf`. -/
def destroy_dst_buf (env : Env) (result : doca_error_t) (tr : List Event) : Out :=
  let tmp_result := env.dec_dst
  let tr := tr ++ [Event.doca_buf_dec_refcount Handle.dst_doca_buf tmp_result]
  let result :=
    if tmp_result ≠ DOCA_SUCCESS then DOCA_ERROR_PROPAGATE result tmp_result else result
  destroy_src_buf env result tr

/-- Lines 161-169: write the result to the output file, then fall through to
`destroy_dst_buf`.  The return values of the two getters and of `fwrite` are
ignored by the code. -/
def write_result (env : Env) (result : doca_error_t) (tr : List Event) : Out :=
  let tr := tr ++ [Event.doca_buf_get_head Handle.dst_doca_buf]
  let tr := tr ++ [Event.doca_buf_get_data_len Handle.dst_doca_buf env.data_len]
  let tr := tr ++ [Event.fwrite env.data_len]
  destroy_dst_buf env result tr

/-- Lines 146-159: submit the task, with or without a checksum pointer. -/
def submit_step (env : Env) (tr : List Event) : Out :=
  if env.output_checksum then
    let result := env.submit
    let tr := tr ++ [Event.submit_decompress_deflate_task Handle.src_doca_buf
      Handle.dst_doca_buf true result]
    if result ≠ DOCA_SUCCESS then destroy_dst_buf env result tr
    else write_result env result tr
  else
    let result := env.submit
    let tr := tr ++ [Event.submit_decompress_deflate_task Handle.src_doca_buf
      Handle.dst_doca_buf false result]
    if result ≠ DOCA_SUCCESS then destroy_dst_buf env result tr
    else write_result env result tr

/-- Lines 125-144: acquire both handles and set the source data length. -/
def acquire_handles (env : Env) (tr : List Event) : Out :=
  let result := env.src_buf_get
  let tr := tr ++ [Event.doca_buf_inventory_buf_get_by_addr Mmap.src_mmap Ptr.file_data
    env.file_size Handle.src_doca_buf result]
  if result ≠ DOCA_SUCCESS then free_dst_buf env result tr else
  let result := env.dst_buf_get
  let tr := tr ++ [Event.doca_buf_inventory_buf_get_by_addr Mmap.dst_mmap Ptr.dst_buffer
    env.max_buf_size Handle.dst_doca_buf result]
  if result ≠ DOCA_SUCCESS then destroy_src_buf env result tr else
  let result := env.set_data
  let tr := tr ++ [Event.doca_buf_set_data Handle.src_doca_buf Ptr.file_data
    env.file_size result]
  if result ≠ DOCA_SUCCESS then destroy_dst_buf env result tr else
  submit_step env tr

/-- Lines 100-123: set the range of and start the destination map, then the
source map. -/
def start_mmaps (env : Env) (tr : List Event) : Out :=
  let result := env.dst_set_memrange
  let tr := tr ++ [Event.doca_mmap_set_memrange Mmap.dst_mmap Ptr.dst_buffer
    env.max_buf_size result]
  if result ≠ DOCA_SUCCESS then free_dst_buf env result tr else
  let result := env.dst_mmap_start
  let tr := tr ++ [Event.doca_mmap_start Mmap.dst_mmap result]
  if result ≠ DOCA_SUCCESS then free_dst_buf env result tr else
  let result := env.src_set_memrange
  let tr := tr ++ [Event.doca_mmap_set_memrange Mmap.src_mmap Ptr.file_data
    env.file_size result]
  if result ≠ DOCA_SUCCESS then free_dst_buf env result tr else
  let result := env.src_mmap_start
  let tr := tr ++ [Event.doca_mmap_start Mmap.src_mmap result]
  if result ≠ DOCA_SUCCESS then free_dst_buf env result tr else
  acquire_handles env tr

/-- The function `decompress_deflate` (lines 39-197). -/
def decompress_deflate (env : Env) : Out :=
  let tr := [Event.fopen env.fopen_ok]
  if ¬ env.fopen_ok then ⟨DOCA_ERROR_NO_MEMORY, tr⟩ else
  let result := env.allocate
  let tr := tr ++ [Event.allocate_compress_resources result]
  if result ≠ DOCA_SUCCESS then close_file env result tr else
  let result := env.get_max
  let tr := tr ++ [Event.get_max_buf_size result env.max_buf_size]
  if result ≠ DOCA_SUCCESS then destroy_resources env result tr else
  if env.file_size > env.max_buf_size then destroy_resources env result tr else
  let result := env.ctx_start
  let tr := tr ++ [Event.doca_ctx_start result]
  if result ≠ DOCA_SUCCESS then destroy_resources env result tr else
  let tr := tr ++ [Event.calloc env.max_buf_size env.calloc_ok]
  if ¬ env.calloc_ok then
    let result := DOCA_ERROR_NO_MEMORY
    destroy_resources env result tr
  else
  start_mmaps env tr

/-- An environment in which every call succeeds; the input has `n` bytes, the
device accepts up to `m`, and the job yields `k` bytes. -/
def okEnv (n m k : Nat) : Env :=
  { file_size := n, output_checksum := false, fopen_ok := true,
    allocate := DOCA_SUCCESS, get_max := DOCA_SUCCESS, max_buf_size := m,
    ctx_start := DOCA_SUCCESS, calloc_ok := true,
    dst_set_memrange := DOCA_SUCCESS, dst_mmap_start := DOCA_SUCCESS,
    src_set_memrange := DOCA_SUCCESS, src_mmap_start := DOCA_SUCCESS,
    src_buf_get := DOCA_SUCCESS, dst_buf_get := DOCA_SUCCESS,
    set_data := DOCA_SUCCESS, submit := DOCA_SUCCESS, data_len := k,
    dec_dst := DOCA_SUCCESS, dec_src := DOCA_SUCCESS, destroy := DOCA_SUCCESS }

/-- An environment in which the submit call fails and so do two of the teardown
steps after it. -/
def envSubmitFails : Env :=
  { okEnv 3 8 5 with
    submit := DOCA_ERROR_IO_FAILED
    dec_src := DOCA_ERROR_BAD_STATE
    destroy := DOCA_ERROR_DRIVER }

/-- An environment in which the context start fails and so does the destruction
of the compress resources. -/
def envCtxStartFails : Env :=
  { okEnv 3 8 5 with
    ctx_start := DOCA_ERROR_INITIALIZATION
    destroy := DOCA_ERROR_DRIVER }

/-- The first non-success status of a sequence, `DOCA_SUCCESS` when there is none. -/
def firstNonSuccess : List doca_error_t → doca_error_t
  | [] => DOCA_SUCCESS
  | r :: rest => if r = DOCA_SUCCESS then firstNonSuccess rest else r

/-- The forward path reaches the submit call: every earlier step succeeded and
the input fits the device buffer. -/
def reachesSubmit (env : Env) : Prop :=
  env.fopen_ok = true ∧ env.allocate = DOCA_SUCCESS ∧ env.get_max = DOCA_SUCCESS ∧
  env.file_size ≤ env.max_buf_size ∧ env.ctx_start = DOCA_SUCCESS ∧
  env.calloc_ok = true ∧ env.dst_set_memrange = DOCA_SUCCESS ∧
  env.dst_mmap_start = DOCA_SUCCESS ∧ env.src_set_memrange = DOCA_SUCCESS ∧
  env.src_mmap_start = DOCA_SUCCESS ∧ env.src_buf_get = DOCA_SUCCESS ∧
  env.dst_buf_get = DOCA_SUCCESS ∧ env.set_data = DOCA_SUCCESS

instance (env : Env) : Decidable (reachesSubmit env) := by
  unfold reachesSubmit
  infer_instance

/-- The teardown steps from `destroy_dst_buf` on, with their outcomes. -/
def teardownSteps (env : Env) : List Event :=
  [Event.doca_buf_dec_refcount Handle.dst_doca_buf env.dec_dst,
   Event.doca_buf_dec_refcount Handle.src_doca_buf env.dec_src,
   Event.free Ptr.dst_buffer,
   Event.destroy_compress_resources env.destroy,
   Event.fclose]

/-- The call starts the compress context (line 87). -/
def Event.isCtxStart : Event → Bool
  | .doca_ctx_start _ => true
  | _ => false

/-- The call allocates the scratch output block (line 93). -/
def Event.isScratchAlloc : Event → Bool
  | .calloc _ _ => true
  | _ => false

/-- The call sets the range of, or starts, a memory region (lines 101-119). -/
def Event.isRegionStep : Event → Bool
  | .doca_mmap_set_memrange _ _ _ _ => true
  | .doca_mmap_start _ _ => true
  | _ => false

/-- The call acquires a buffer handle (lines 126 and 133). -/
def Event.isHandleAcquire : Event → Bool
  | .doca_buf_inventory_buf_get_by_addr _ _ _ _ _ => true
  | _ => false

/-- The call submits the decompress job (lines 148 and 154). -/
def Event.isSubmit : Event → Bool
  | .submit_decompress_deflate_task _ _ _ _ => true
  | _ => false

/-- The call is one of the teardown steps of lines 170-194. -/
def Event.isTeardown : Event → Bool
  | .doca_buf_dec_refcount _ _ => true
  | .free _ => true
  | .destroy_compress_resources _ => true
  | .fclose => true
  | _ => false

/-- Number of bytes handed to `fwrite` on the output file over a trace. -/
def bytes_written : List Event → Nat
  | [] => 0
  | Event.fwrite count :: rest => count + bytes_written rest
  | _ :: rest => bytes_written rest

/-- Everything the forward path acquires or starts, in the order of the
forward path (lines 57, 67, 87, 93, 107, 119, 126, 133). -/
inductive Resource
  | out_file
  | accel_resources
  | context
  | scratch
  | dst_region
  | src_region
  | src_handle
  | dst_handle
  deriving DecidableEq, Repr

/-- The resource that a call successfully acquires or starts, if any. -/
def Event.acquires : Event → Option Resource
  | .fopen true => some Resource.out_file
  | .allocate_compress_resources DOCA_SUCCESS => some Resource.accel_resources
  | .doca_ctx_start DOCA_SUCCESS => some Resource.context
  | .calloc _ true => some Resource.scratch
  | .doca_mmap_start Mmap.dst_mmap DOCA_SUCCESS => some Resource.dst_region
  | .doca_mmap_start Mmap.src_mmap DOCA_SUCCESS => some Resource.src_region
  | .doca_buf_inventory_buf_get_by_addr _ _ _ Handle.src_doca_buf DOCA_SUCCESS =>
      some Resource.src_handle
  | .doca_buf_inventory_buf_get_by_addr _ _ _ Handle.dst_doca_buf DOCA_SUCCESS =>
      some Resource.dst_handle
  | _ => none

/-- The resource that a teardown call of lines 172, 178, 184, 188 and 194 is
made on, whatever the call returns. -/
def Event.releases : Event → Option Resource
  | .doca_buf_dec_refcount Handle.dst_doca_buf _ => some Resource.dst_handle
  | .doca_buf_dec_refcount Handle.src_doca_buf _ => some Resource.src_handle
  | .free Ptr.dst_buffer => some Resource.scratch
  | .destroy_compress_resources _ => some Resource.accel_resources
  | .fclose => some Resource.out_file
  | _ => none

/-- The resources that `decompress_deflate` releases with a teardown step of
its own, in the order in which the forward path acquires them. -/
def ownedResources : List Resource :=
  [Resource.out_file, Resource.accel_resources, Resource.scratch, Resource.src_handle,
   Resource.dst_handle]

/-- What each call of a trace acquires, call by call. -/
def acquisitions (tr : List Event) : List (Option Resource) :=
  tr.map Event.acquires

/-- What each call of a trace releases, call by call. -/
def releases (tr : List Event) : List (Option Resource) :=
  tr.map Event.releases

/-- Both `a` and `b` occur in the list, `a` first. -/
def precedesIn (l : List (Option Resource)) (a b : Resource) : Bool :=
  l.contains (some a) && l.contains (some b) &&
    decide (l.indexOf (some a) < l.indexOf (some b))

/-- Both `a` and `b` occur in the list, `a` at or before the position of `b`. -/
def notAfterIn (l : List (Option Resource)) (a b : Resource) : Bool :=
  l.contains (some a) && l.contains (some b) &&
    decide (l.indexOf (some a) ≤ l.indexOf (some b))

/-- The resource was successfully acquired over the trace. -/
def acquired (tr : List Event) (a : Resource) : Bool :=
  (acquisitions tr).contains (some a)

/-- How many of the owned resources were acquired over the trace. -/
def acquiredCount (tr : List Event) : Nat :=
  (ownedResources.filter (acquired tr)).length

/-- How many calls of the trace successfully acquire the resource. -/
def acquireCalls (tr : List Event) (a : Resource) : Nat :=
  (acquisitions tr).count (some a)

/-- How many teardown calls of the trace are made on the resource. -/
def releaseCalls (tr : List Event) (a : Resource) : Nat :=
  (releases tr).count (some a)

/-- The first teardown call made on the resource comes after its first
successful acquisition. -/
def releasedAfterAcquired (tr : List Event) (a : Resource) : Bool :=
  (acquisitions tr).contains (some a) &&
    decide ((acquisitions tr).indexOf (some a) < (releases tr).indexOf (some a))

/-- The events of a trace that come before the first submit call. -/
def beforeSubmit (tr : List Event) : List Event :=
  tr.takeWhile (fun e => !e.isSubmit)

/-- Modelled from the spec: which teardown step of `decompress_deflate` releases
or stops each resource.  The body of `destroy_compress_resources` is not among
the sources; by the spec the two regions are stopped implicitly as part of
resource destruction, which also stops the context and closes the device.  The
other five resources have a teardown step of their own in the function. -/
def Resource.releasedWith : Resource → Resource
  | .context => Resource.accel_resources
  | .dst_region => Resource.accel_resources
  | .src_region => Resource.accel_resources
  | a => a

/-- Both resources were acquired over the trace, `a` before `b`. -/
def acquiredBefore (tr : List Event) (a b : Resource) : Bool :=
  precedesIn (acquisitions tr) a b

/-- Both resources are released over the trace, `b` by a call strictly before
the call that releases `a`. -/
def releasedBefore (tr : List Event) (b a : Resource) : Bool :=
  precedesIn (releases tr) b.releasedWith a.releasedWith

/-- Both resources are released over the trace, `b` no later than `a`: by an
earlier call or by the same call. -/
def releasedNotAfter (tr : List Event) (b a : Resource) : Bool :=
  notAfterIn (releases tr) b.releasedWith a.releasedWith

/-- The pairs for which teardown is not the reverse of acquisition: the scratch
block and a region started after it. -/
def scratchThenRegion (a b : Resource) : Bool :=
  decide (a = Resource.scratch) &&
    (decide (b = Resource.dst_region) || decide (b = Resource.src_region))

/-- The forward calls of `decompress_deflate` in program order, with their outcomes. -/
def forwardCalls (env : Env) : List Event :=
  [Event.fopen env.fopen_ok,
   Event.allocate_compress_resources env.allocate,
   Event.get_max_buf_size env.get_max env.max_buf_size,
   Event.doca_ctx_start env.ctx_start,
   Event.calloc env.max_buf_size env.calloc_ok,
   Event.doca_mmap_set_memrange Mmap.dst_mmap Ptr.dst_buffer env.max_buf_size
     env.dst_set_memrange,
   Event.doca_mmap_start Mmap.dst_mmap env.dst_mmap_start,
   Event.doca_mmap_set_memrange Mmap.src_mmap Ptr.file_data env.file_size
     env.src_set_memrange,
   Event.doca_mmap_start Mmap.src_mmap env.src_mmap_start,
   Event.doca_buf_inventory_buf_get_by_addr Mmap.src_mmap Ptr.file_data env.file_size
     Handle.src_doca_buf env.src_buf_get,
   Event.doca_buf_inventory_buf_get_by_addr Mmap.dst_mmap Ptr.dst_buffer env.max_buf_size
     Handle.dst_doca_buf env.dst_buf_get,
   Event.doca_buf_set_data Handle.src_doca_buf Ptr.file_data env.file_size env.set_data,
   Event.submit_decompress_deflate_task Handle.src_doca_buf Handle.dst_doca_buf
     env.output_checksum env.submit,
   Event.doca_buf_get_head Handle.dst_doca_buf,
   Event.doca_buf_get_data_len Handle.dst_doca_buf env.data_len,
   Event.fwrite env.data_len]

/-- The first `n` checks of the forward path of `decompress_deflate` pass
(check 0 is the `fopen` check of line 58, check 13 the submit check). -/
def passes (env : Env) : Nat → Prop
  | 0 => True
  | 1 => passes env 0 ∧ env.fopen_ok = true
  | 2 => passes env 1 ∧ env.allocate = DOCA_SUCCESS
  | 3 => passes env 2 ∧ env.get_max = DOCA_SUCCESS
  | 4 => passes env 3 ∧ env.file_size ≤ env.max_buf_size
  | 5 => passes env 4 ∧ env.ctx_start = DOCA_SUCCESS
  | 6 => passes env 5 ∧ env.calloc_ok = true
  | 7 => passes env 6 ∧ env.dst_set_memrange = DOCA_SUCCESS
  | 8 => passes env 7 ∧ env.dst_mmap_start = DOCA_SUCCESS
  | 9 => passes env 8 ∧ env.src_set_memrange = DOCA_SUCCESS
  | 10 => passes env 9 ∧ env.src_mmap_start = DOCA_SUCCESS
  | 11 => passes env 10 ∧ env.src_buf_get = DOCA_SUCCESS
  | 12 => passes env 11 ∧ env.dst_buf_get = DOCA_SUCCESS
  | 13 => passes env 12 ∧ env.set_data = DOCA_SUCCESS
  | 14 => passes env 13 ∧ env.submit = DOCA_SUCCESS
  | _ => False

/-- The forward path of `decompress_deflate` stops at check `n`: the checks
before it pass and check `n` sends control to a label (or returns); `n = 14`
means that every check passes. -/
def stopsAt (env : Env) : Nat → Prop
  | 0 => passes env 0 ∧ env.fopen_ok = false
  | 1 => passes env 1 ∧ env.allocate ≠ DOCA_SUCCESS
  | 2 => passes env 2 ∧ env.get_max ≠ DOCA_SUCCESS
  | 3 => passes env 3 ∧ env.file_size > env.max_buf_size
  | 4 => passes env 4 ∧ env.ctx_start ≠ DOCA_SUCCESS
  | 5 => passes env 5 ∧ env.calloc_ok = false
  | 6 => passes env 6 ∧ env.dst_set_memrange ≠ DOCA_SUCCESS
  | 7 => passes env 7 ∧ env.dst_mmap_start ≠ DOCA_SUCCESS
  | 8 => passes env 8 ∧ env.src_set_memrange ≠ DOCA_SUCCESS
  | 9 => passes env 9 ∧ env.src_mmap_start ≠ DOCA_SUCCESS
  | 10 => passes env 10 ∧ env.src_buf_get ≠ DOCA_SUCCESS
  | 11 => passes env 11 ∧ env.dst_buf_get ≠ DOCA_SUCCESS
  | 12 => passes env 12 ∧ env.set_data ≠ DOCA_SUCCESS
  | 13 => passes env 13 ∧ env.submit ≠ DOCA_SUCCESS
  | _ => passes env 14

/-- Table of the outcomes of `decompress_deflate`, by the check at which the
forward path stops: the status returned, and the forward calls made followed by
the teardown steps run.  A proof device; `decompress_deflate_path` proves that
the function agrees with it. -/
def pathOut (env : Env) : Nat → Out
  | 0 => ⟨DOCA_ERROR_NO_MEMORY, (forwardCalls env).take 1⟩
  | 1 => ⟨env.allocate, (forwardCalls env).take 2 ++ (teardownSteps env).drop 4⟩
  | 2 => ⟨env.get_max, (forwardCalls env).take 3 ++ (teardownSteps env).drop 3⟩
  | 3 => ⟨env.destroy, (forwardCalls env).take 3 ++ (teardownSteps env).drop 3⟩
  | 4 => ⟨env.ctx_start, (forwardCalls env).take 4 ++ (teardownSteps env).drop 3⟩
  | 5 => ⟨DOCA_ERROR_NO_MEMORY, (forwardCalls env).take 5 ++ (teardownSteps env).drop 3⟩
  | 6 => ⟨env.dst_set_memrange, (forwardCalls env).take 6 ++ (teardownSteps env).drop 2⟩
  | 7 => ⟨env.dst_mmap_start, (forwardCalls env).take 7 ++ (teardownSteps env).drop 2⟩
  | 8 => ⟨env.src_set_memrange, (forwardCalls env).take 8 ++ (teardownSteps env).drop 2⟩
  | 9 => ⟨env.src_mmap_start, (forwardCalls env).take 9 ++ (teardownSteps env).drop 2⟩
  | 10 => ⟨env.src_buf_get, (forwardCalls env).take 10 ++ (teardownSteps env).drop 2⟩
  | 11 => ⟨env.dst_buf_get, (forwardCalls env).take 11 ++ (teardownSteps env).drop 1⟩
  | 12 => ⟨env.set_data, (forwardCalls env).take 12 ++ teardownSteps env⟩
  | 13 => ⟨env.submit, (forwardCalls env).take 13 ++ teardownSteps env⟩
  | _ => ⟨firstNonSuccess [env.dec_dst, env.dec_src, env.destroy],
      forwardCalls env ++ teardownSteps env⟩

end Decompress

namespace CompressMain

/-- One external call made by `main` of the compress CLI, with the status it
returned. -/
inductive Event
  | doca_log_backend_create_standard (r : doca_error_t)
  | doca_log_backend_create_with_file_sdk (r : doca_error_t)
  | doca_log_backend_set_sdk_level (r : doca_error_t)
  | doca_argp_init (r : doca_error_t)
  | register_compress_params (r : doca_error_t)
  | doca_argp_start (r : doca_error_t)
  | read_file (r : doca_error_t)
  | compress_deflate (r : doca_error_t)
  | free_file_data
  | doca_argp_destroy
  deriving DecidableEq, Repr

/-- The outcome of every external call `main` can make. -/
structure Env where
  /-- Result of `doca_log_backend_create_standard` (line 55). -/
  log_standard : doca_error_t
  /-- Result of `doca_log_backend_create_with_file_sdk` (line 60). -/
  log_sdk : doca_error_t
  /-- Result of `doca_log_backend_set_sdk_level` (line 63). -/
  log_level : doca_error_t
  /-- Result of `doca_argp_init` (line 70). -/
  argp_init : doca_error_t
  /-- Result of `register_compress_params` (line 78). -/
  register_params : doca_error_t
  /-- Result of `doca_argp_start` (line 91). -/
  argp_start : doca_error_t
  /-- Result of `read_file` (line 98). -/
  read_file : doca_error_t
  /-- Whether `read_file` stored a non-NULL pointer in `file_data`. -/
  file_data_nonnull : Bool
  /-- Result of `compress_deflate` (line 106). -/
  compress_deflate : doca_error_t
  deriving DecidableEq, Repr

/-- Modelled from the spec: `EXIT_SUCCESS` of `stdlib.h`, the zero exit code. -/
def EXIT_SUCCESS : Int := 0

/-- Modelled from the spec: `EXIT_FAILURE` of `stdlib.h`, a non-zero exit code
(1 with the C library the samples are built against). -/
def EXIT_FAILURE : Int := 1

/-- What a run of `main` leaves behind: the exit status and the external calls
made, in program order. -/
structure Out where
  exit_status : Int
  trace : List Event
  deriving DecidableEq, Repr

/-- Label `sample_exit` (lines 119-124): only logging, then the return. -/
def sample_exit (exit_status : Int) (tr : List Event) : Out :=
  ⟨exit_status, tr⟩

/-- Label `argp_cleanup` (lines 117-118), falling through to `sample_exit`. -/
def argp_cleanup (exit_status : Int) (tr : List Event) : Out :=
  let tr := tr ++ [Event.doca_argp_destroy]
  sample_exit exit_status tr

/-- Label `data_file_cleanup` (lines 114-116), falling through to
`argp_cleanup`. -/
def data_file_cleanup (env : Env) (exit_status : Int) (tr : List Event) : Out :=
  if env.file_data_nonnull then
    let tr := tr ++ [Event.free_file_data]
    argp_cleanup exit_status tr
  else
    argp_cleanup exit_status tr

/-- The function `main` of the compress CLI (lines 39-125). -/
def main (env : Env) : Out :=
  let exit_status := EXIT_FAILURE
  let result := env.log_standard
  let tr := [Event.doca_log_backend_create_standard result]
  if result ≠ DOCA_SUCCESS then sample_exit exit_status tr else
  let result := env.log_sdk
  let tr := tr ++ [Event.doca_log_backend_create_with_file_sdk result]
  if result ≠ DOCA_SUCCESS then sample_exit exit_status tr else
  let result := env.log_level
  let tr := tr ++ [Event.doca_log_backend_set_sdk_level result]
  if result ≠ DOCA_SUCCESS then sample_exit exit_status tr else
  let result := env.argp_init
  let tr := tr ++ [Event.doca_argp_init result]
  if result ≠ DOCA_SUCCESS then sample_exit exit_status tr else
  let result := env.register_params
  let tr := tr ++ [Event.register_compress_params result]
  if result ≠ DOCA_SUCCESS then argp_cleanup exit_status tr else
  let result := env.argp_start
  let tr := tr ++ [Event.doca_argp_start result]
  if result ≠ DOCA_SUCCESS then argp_cleanup exit_status tr else
  let result := env.read_file
  let tr := tr ++ [Event.read_file result]
  if result ≠ DOCA_SUCCESS then argp_cleanup exit_status tr else
  let result := env.compress_deflate
  let tr := tr ++ [Event.compress_deflate result]
  if result ≠ DOCA_SUCCESS then data_file_cleanup env exit_status tr else
  let exit_status := EXIT_SUCCESS
  data_file_cleanup env exit_status tr

/-- The status returned by a forward step of `main`; `none` for a cleanup call. -/
def Event.status : Event → Option doca_error_t
  | .doca_log_backend_create_standard r => some r
  | .doca_log_backend_create_with_file_sdk r => some r
  | .doca_log_backend_set_sdk_level r => some r
  | .doca_argp_init r => some r
  | .register_compress_params r => some r
  | .doca_argp_start r => some r
  | .read_file r => some r
  | .compress_deflate r => some r
  | .free_file_data => none
  | .doca_argp_destroy => none

/-- The call is one of the eight forward steps of `main`. -/
def Event.isForward (e : Event) : Bool :=
  e.status.isSome

/-- The eight forward steps of `main` in program order, with their outcomes. -/
def forwardSteps (env : Env) : List Event :=
  [Event.doca_log_backend_create_standard env.log_standard,
   Event.doca_log_backend_create_with_file_sdk env.log_sdk,
   Event.doca_log_backend_set_sdk_level env.log_level,
   Event.doca_argp_init env.argp_init,
   Event.register_compress_params env.register_params,
   Event.doca_argp_start env.argp_start,
   Event.read_file env.read_file,
   Event.compress_deflate env.compress_deflate]

/-- The steps of a sequence up to and including the first one that does not
return `DOCA_SUCCESS`. -/
def throughFirstFailure : List Event → List Event
  | [] => []
  | e :: rest =>
      if e.status = some DOCA_SUCCESS then e :: throughFirstFailure rest else [e]

/-- Every forward step of `main` returns `DOCA_SUCCESS`. -/
def allSucceed (env : Env) : Prop :=
  env.log_standard = DOCA_SUCCESS ∧ env.log_sdk = DOCA_SUCCESS ∧
  env.log_level = DOCA_SUCCESS ∧ env.argp_init = DOCA_SUCCESS ∧
  env.register_params = DOCA_SUCCESS ∧ env.argp_start = DOCA_SUCCESS ∧
  env.read_file = DOCA_SUCCESS ∧ env.compress_deflate = DOCA_SUCCESS

instance (env : Env) : Decidable (allSucceed env) := by
  unfold allSucceed
  infer_instance

/-- An environment of `main` in which every call succeeds. -/
def okEnv : Env :=
  { log_standard := DOCA_SUCCESS, log_sdk := DOCA_SUCCESS, log_level := DOCA_SUCCESS,
    argp_init := DOCA_SUCCESS, register_params := DOCA_SUCCESS, argp_start := DOCA_SUCCESS,
    read_file := DOCA_SUCCESS, file_data_nonnull := true, compress_deflate := DOCA_SUCCESS }

end CompressMain

namespace Decompress

theorem firstNonSuccess_cons_success (l : List doca_error_t) :
    firstNonSuccess (DOCA_SUCCESS :: l) = firstNonSuccess l := by
  simp [firstNonSuccess]

theorem firstNonSuccess_cons_failure (r : doca_error_t) (l : List doca_error_t)
    (h : r ≠ DOCA_SUCCESS) : firstNonSuccess (r :: l) = r := by
  simp [firstNonSuccess, h]

theorem close_file_eq (env : Env) (r : doca_error_t) (tr : List Event) :
    close_file env r tr = ⟨r, tr ++ (teardownSteps env).drop 4⟩ := by
  simp [close_file, teardownSteps]

theorem destroy_resources_eq (env : Env) (r : doca_error_t) (tr : List Event) :
    destroy_resources env r tr =
      ⟨firstNonSuccess [r, env.destroy], tr ++ (teardownSteps env).drop 3⟩ := by
  simp only [destroy_resources, close_file, DOCA_ERROR_PROPAGATE, firstNonSuccess,
    teardownSteps]
  split_ifs <;> simp_all

theorem free_dst_buf_eq (env : Env) (r : doca_error_t) (tr : List Event) :
    free_dst_buf env r tr =
      ⟨firstNonSuccess [r, env.destroy], tr ++ (teardownSteps env).drop 2⟩ := by
  simp [free_dst_buf, destroy_resources_eq, teardownSteps]

theorem destroy_src_buf_eq (env : Env) (r : doca_error_t) (tr : List Event) :
    destroy_src_buf env r tr =
      ⟨firstNonSuccess [r, env.dec_src, env.destroy], tr ++ (teardownSteps env).drop 1⟩ := by
  simp only [destroy_src_buf, free_dst_buf_eq, DOCA_ERROR_PROPAGATE, firstNonSuccess,
    teardownSteps]
  split_ifs <;> simp_all

theorem destroy_dst_buf_eq (env : Env) (r : doca_error_t) (tr : List Event) :
    destroy_dst_buf env r tr =
      ⟨firstNonSuccess [r, env.dec_dst, env.dec_src, env.destroy],
        tr ++ teardownSteps env⟩ := by
  simp only [destroy_dst_buf, destroy_src_buf_eq, DOCA_ERROR_PROPAGATE, firstNonSuccess,
    teardownSteps]
  split_ifs <;> simp_all

theorem decompress_deflate_path (env : Env) :
    ∃ n, n ≤ 14 ∧ stopsAt env n ∧ decompress_deflate env = pathOut env n := by
  by_cases h0 : env.fopen_ok = true
  swap
  · refine ⟨0, by norm_num, by simp [stopsAt, passes, h0], ?_⟩
    simp [decompress_deflate, start_mmaps, acquire_handles, submit_step, write_result, pathOut,
      forwardCalls, teardownSteps, destroy_dst_buf_eq, destroy_src_buf_eq, free_dst_buf_eq,
      destroy_resources_eq, close_file_eq, firstNonSuccess,
      h0]
  by_cases h1 : env.allocate = DOCA_SUCCESS
  swap
  · refine ⟨1, by norm_num, by simp [stopsAt, passes, h0, h1], ?_⟩
    simp [decompress_deflate, start_mmaps, acquire_handles, submit_step, write_result, pathOut,
      forwardCalls, teardownSteps, destroy_dst_buf_eq, destroy_src_buf_eq, free_dst_buf_eq,
      destroy_resources_eq, close_file_eq, firstNonSuccess,
      h0, h1]
  by_cases h2 : env.get_max = DOCA_SUCCESS
  swap
  · refine ⟨2, by norm_num, by simp [stopsAt, passes, h0, h1, h2], ?_⟩
    simp [decompress_deflate, start_mmaps, acquire_handles, submit_step, write_result, pathOut,
      forwardCalls, teardownSteps, destroy_dst_buf_eq, destroy_src_buf_eq, free_dst_buf_eq,
      destroy_resources_eq, close_file_eq, firstNonSuccess,
      h0, h1, h2]
  by_cases h3 : env.file_size ≤ env.max_buf_size
  swap
  · have hd : firstNonSuccess [DOCA_SUCCESS, env.destroy] = env.destroy := by
      by_cases hd : env.destroy = DOCA_SUCCESS <;> simp [firstNonSuccess, hd]
    have h3b : env.file_size > env.max_buf_size := by omega
    refine ⟨3, by norm_num, by simp [stopsAt, passes, h0, h1, h2, h3b], ?_⟩
    simp [decompress_deflate, pathOut, forwardCalls, teardownSteps, destroy_resources_eq, hd,
      h0, h1, h2, h3b]
  have h3n : ¬ env.file_size > env.max_buf_size := by omega
  by_cases h4 : env.ctx_start = DOCA_SUCCESS
  swap
  · refine ⟨4, by norm_num, by simp [stopsAt, passes, h0, h1, h2, h3, h3n, h4], ?_⟩
    simp [decompress_deflate, start_mmaps, acquire_handles, submit_step, write_result, pathOut,
      forwardCalls, teardownSteps, destroy_dst_buf_eq, destroy_src_buf_eq, free_dst_buf_eq,
      destroy_resources_eq, close_file_eq, firstNonSuccess,
      h0, h1, h2, h3, h3n, h4]
  by_cases h5 : env.calloc_ok = true
  swap
  · refine ⟨5, by norm_num, by simp [stopsAt, passes, h0, h1, h2, h3, h3n, h4, h5], ?_⟩
    simp [decompress_deflate, start_mmaps, acquire_handles, submit_step, write_result, pathOut,
      forwardCalls, teardownSteps, destroy_dst_buf_eq, destroy_src_buf_eq, free_dst_buf_eq,
      destroy_resources_eq, close_file_eq, firstNonSuccess,
      h0, h1, h2, h3, h3n, h4, h5]
  by_cases h6 : env.dst_set_memrange = DOCA_SUCCESS
  swap
  · refine ⟨6, by norm_num, by simp [stopsAt, passes, h0, h1, h2, h3, h3n, h4, h5, h6], ?_⟩
    simp [decompress_deflate, start_mmaps, acquire_handles, submit_step, write_result, pathOut,
      forwardCalls, teardownSteps, destroy_dst_buf_eq, destroy_src_buf_eq, free_dst_buf_eq,
      destroy_resources_eq, close_file_eq, firstNonSuccess,
      h0, h1, h2, h3, h3n, h4, h5, h6]
  by_cases h7 : env.dst_mmap_start = DOCA_SUCCESS
  swap
  · refine ⟨7, by norm_num, by simp [stopsAt, passes, h0, h1, h2, h3, h3n, h4, h5, h6, h7], ?_⟩
    simp [decompress_deflate, start_mmaps, acquire_handles, submit_step, write_result, pathOut,
      forwardCalls, teardownSteps, destroy_dst_buf_eq, destroy_src_buf_eq, free_dst_buf_eq,
      destroy_resources_eq, close_file_eq, firstNonSuccess,
      h0, h1, h2, h3, h3n, h4, h5, h6, h7]
  by_cases h8 : env.src_set_memrange = DOCA_SUCCESS
  swap
  · refine ⟨8, by norm_num, by simp [stopsAt, passes, h0, h1, h2, h3, h3n, h4, h5, h6, h7, h8], ?_⟩
    simp [decompress_deflate, start_mmaps, acquire_handles, submit_step, write_result, pathOut,
      forwardCalls, teardownSteps, destroy_dst_buf_eq, destroy_src_buf_eq, free_dst_buf_eq,
      destroy_resources_eq, close_file_eq, firstNonSuccess,
      h0, h1, h2, h3, h3n, h4, h5, h6, h7, h8]
  by_cases h9 : env.src_mmap_start = DOCA_SUCCESS
  swap
  · refine ⟨9, by norm_num, by simp [stopsAt, passes, h0, h1, h2, h3, h3n, h4, h5, h6, h7, h8, h9], ?_⟩
    simp [decompress_deflate, start_mmaps, acquire_handles, submit_step, write_result, pathOut,
      forwardCalls, teardownSteps, destroy_dst_buf_eq, destroy_src_buf_eq, free_dst_buf_eq,
      destroy_resources_eq, close_file_eq, firstNonSuccess,
      h0, h1, h2, h3, h3n, h4, h5, h6, h7, h8, h9]
  by_cases h10 : env.src_buf_get = DOCA_SUCCESS
  swap
  · refine ⟨10, by norm_num, by simp [stopsAt, passes, h0, h1, h2, h3, h3n, h4, h5, h6, h7, h8, h9, h10], ?_⟩
    simp [decompress_deflate, start_mmaps, acquire_handles, submit_step, write_result, pathOut,
      forwardCalls, teardownSteps, destroy_dst_buf_eq, destroy_src_buf_eq, free_dst_buf_eq,
      destroy_resources_eq, close_file_eq, firstNonSuccess,
      h0, h1, h2, h3, h3n, h4, h5, h6, h7, h8, h9, h10]
  by_cases h11 : env.dst_buf_get = DOCA_SUCCESS
  swap
  · refine ⟨11, by norm_num, by simp [stopsAt, passes, h0, h1, h2, h3, h3n, h4, h5, h6, h7, h8, h9, h10, h11], ?_⟩
    simp [decompress_deflate, start_mmaps, acquire_handles, submit_step, write_result, pathOut,
      forwardCalls, teardownSteps, destroy_dst_buf_eq, destroy_src_buf_eq, free_dst_buf_eq,
      destroy_resources_eq, close_file_eq, firstNonSuccess,
      h0, h1, h2, h3, h3n, h4, h5, h6, h7, h8, h9, h10, h11]
  by_cases h12 : env.set_data = DOCA_SUCCESS
  swap
  · refine ⟨12, by norm_num, by simp [stopsAt, passes, h0, h1, h2, h3, h3n, h4, h5, h6, h7, h8, h9, h10, h11, h12], ?_⟩
    simp [decompress_deflate, start_mmaps, acquire_handles, submit_step, write_result, pathOut,
      forwardCalls, teardownSteps, destroy_dst_buf_eq, destroy_src_buf_eq, free_dst_buf_eq,
      destroy_resources_eq, close_file_eq, firstNonSuccess,
      h0, h1, h2, h3, h3n, h4, h5, h6, h7, h8, h9, h10, h11, h12]
  by_cases h13 : env.submit = DOCA_SUCCESS
  swap
  · refine ⟨13, by norm_num, by simp [stopsAt, passes, h0, h1, h2, h3, h3n, h4, h5, h6, h7, h8, h9, h10, h11, h12, h13], ?_⟩
    cases hc : env.output_checksum <;>
    simp [decompress_deflate, start_mmaps, acquire_handles, submit_step, write_result, pathOut,
      forwardCalls, teardownSteps, destroy_dst_buf_eq, destroy_src_buf_eq, free_dst_buf_eq,
      destroy_resources_eq, close_file_eq, firstNonSuccess,
      h0, h1, h2, h3, h3n, h4, h5, h6, h7, h8, h9, h10, h11, h12, h13, hc]
  refine ⟨14, by norm_num, by simp [stopsAt, passes, h0, h1, h2, h3, h3n, h4, h5, h6, h7, h8, h9, h10, h11, h12, h13], ?_⟩
  cases hc : env.output_checksum <;>
  simp [decompress_deflate, start_mmaps, acquire_handles, submit_step, write_result, pathOut,
      forwardCalls, teardownSteps, destroy_dst_buf_eq, destroy_src_buf_eq, free_dst_buf_eq,
      destroy_resources_eq, close_file_eq, firstNonSuccess,
    h0, h1, h2, h3, h3n, h4, h5, h6, h7, h8, h9, h10, h11, h12, h13, hc]

/-- C1 (evaluation at the failing input): with a 9-byte input and a queried
maximum of 8, every call succeeding, `decompress_deflate` skips the job and
returns `DOCA_SUCCESS`: the size check at line 81 jumps to `destroy_resources`
without assigning `result`, which still holds the status of the successful
query. -/
theorem oversized_input_returns_success :
    (okEnv 9 8 5).file_size > (okEnv 9 8 5).max_buf_size ∧
    decompress_deflate (okEnv 9 8 5) =
      ⟨DOCA_SUCCESS,
        [Event.fopen true,
         Event.allocate_compress_resources DOCA_SUCCESS,
         Event.get_max_buf_size DOCA_SUCCESS 8,
         Event.destroy_compress_resources DOCA_SUCCESS,
         Event.fclose]⟩ := by
  decide

/-- C2: entered at `destroy_dst_buf` with status `r`, the teardown returns the
first non-success value of `[r, t_dst, t_src, t_res]`, hence `DOCA_SUCCESS`
only when all four are success; so once the submit call is reached,
`decompress_deflate` returns a submit failure whatever the teardown steps
return, and after a successful job it returns the first teardown failure. -/
theorem teardown_keeps_first_failure (env : Env) :
    (∀ r tr, (destroy_dst_buf env r tr).result =
      firstNonSuccess [r, env.dec_dst, env.dec_src, env.destroy]) ∧
    (∀ r tr, (destroy_dst_buf env r tr).result = DOCA_SUCCESS ↔
      r = DOCA_SUCCESS ∧ env.dec_dst = DOCA_SUCCESS ∧ env.dec_src = DOCA_SUCCESS ∧
        env.destroy = DOCA_SUCCESS) ∧
    (reachesSubmit env →
      (decompress_deflate env).result =
        firstNonSuccess [env.submit, env.dec_dst, env.dec_src, env.destroy]) ∧
    (reachesSubmit env → env.submit ≠ DOCA_SUCCESS →
      (decompress_deflate env).result = env.submit) ∧
    (reachesSubmit env → env.submit = DOCA_SUCCESS →
      (decompress_deflate env).result =
        firstNonSuccess [env.dec_dst, env.dec_src, env.destroy]) := by
  have key : reachesSubmit env →
      (decompress_deflate env).result =
        firstNonSuccess [env.submit, env.dec_dst, env.dec_src, env.destroy] := by
    intro h
    obtain ⟨h0, h1, h2, h3, h4, h5, h6, h7, h8, h9, h10, h11, h12⟩ := h
    have h3n : ¬ env.file_size > env.max_buf_size := by omega
    simp only [decompress_deflate, start_mmaps, acquire_handles, submit_step, write_result,
      destroy_dst_buf_eq, h0, h1, h2, h3n, h4, h5, h6, h7, h8, h9, h10, h11, h12]
    split_ifs <;> simp_all [firstNonSuccess]
  refine ⟨fun r tr => by rw [destroy_dst_buf_eq], fun r tr => ?_, key, ?_, ?_⟩
  · rw [destroy_dst_buf_eq]
    simp only [firstNonSuccess]
    split_ifs <;> simp_all
  · intro h hs
    rw [key h, firstNonSuccess_cons_failure _ _ hs]
  · intro h hs
    rw [key h, hs, firstNonSuccess_cons_success]

/-- C3: the teardown steps performed by `decompress_deflate` are, in this order,
release destination handle, release source handle, free scratch memory, destroy
compress resources, close output file, each once, whenever both handles were
acquired and whatever any step returns; on every other path they are the
suffix of that sequence that starts at the last owned resource acquired (the
owned resources acquired being the first ones in acquisition order); and the
teardown steps are the tail of the trace. -/
theorem teardown_sequence_fixed (env : Env) :
    (acquired (decompress_deflate env).trace Resource.src_handle = true ∧
      acquired (decompress_deflate env).trace Resource.dst_handle = true →
      (decompress_deflate env).trace.filter Event.isTeardown = teardownSteps env) ∧
    (decompress_deflate env).trace.filter Event.isTeardown =
      (teardownSteps env).drop (5 - acquiredCount (decompress_deflate env).trace) ∧
    ownedResources.filter (acquired (decompress_deflate env).trace) =
      ownedResources.take (acquiredCount (decompress_deflate env).trace) ∧
    (decompress_deflate env).trace =
      (decompress_deflate env).trace.filter (fun e => !e.isTeardown) ++
        (decompress_deflate env).trace.filter Event.isTeardown := by
  obtain ⟨n, hn, hc, ho⟩ := decompress_deflate_path env
  rw [ho]
  interval_cases n <;>
    simp [stopsAt, passes] at hc <;>
    simp [pathOut, forwardCalls, Event.isTeardown, Event.acquires, acquired, acquisitions,
      acquiredCount, ownedResources, List.filter, teardownSteps, hc]

/-- C4: if `doca_ctx_start` is called and returns a failure `e`, the calls made
are exactly: open the file, allocate resources, query the maximum, start the
context, destroy resources, close the file.  So no region is range-set or
started, no scratch block is allocated, no handle is acquired, no job is
submitted, the teardown is `destroy_compress_resources` then `fclose`, and the
function returns `e` whatever `destroy_compress_resources` returns. -/
theorem ctx_start_failure_short_circuits (env : Env) (e : doca_error_t)
    (hcall : Event.doca_ctx_start e ∈ (decompress_deflate env).trace)
    (he : e ≠ DOCA_SUCCESS) :
    (∀ ev ∈ (decompress_deflate env).trace,
      ev.isRegionStep = false ∧ ev.isScratchAlloc = false ∧ ev.isHandleAcquire = false ∧
      ev.isSubmit = false) ∧
    (decompress_deflate env).trace.filter Event.isTeardown =
      [Event.destroy_compress_resources env.destroy, Event.fclose] ∧
    (decompress_deflate env).trace =
      [Event.fopen true,
       Event.allocate_compress_resources DOCA_SUCCESS,
       Event.get_max_buf_size DOCA_SUCCESS env.max_buf_size,
       Event.doca_ctx_start e,
       Event.destroy_compress_resources env.destroy,
       Event.fclose] ∧
    (decompress_deflate env).result = e := by
  obtain ⟨n, hn, hc, ho⟩ := decompress_deflate_path env
  rw [ho] at hcall ⊢
  interval_cases n <;>
    simp [stopsAt, passes] at hc <;>
    simp [pathOut, forwardCalls, teardownSteps, hc] at hcall <;>
    first
    | exact absurd hcall he
    | (subst hcall
       simp [pathOut, forwardCalls, teardownSteps, Event.isTeardown, Event.isRegionStep,
         Event.isScratchAlloc, Event.isHandleAcquire, Event.isSubmit, List.filter, hc])

/-- C5: when `file_size` exceeds the queried maximum buffer size, no call of
`decompress_deflate` starts the context, sets or starts a region, acquires a
handle or submits a job, and no byte is written to the output file, which
was opened before the query and the size check. -/
theorem oversized_input_never_submits (env : Env)
    (h : env.file_size > env.max_buf_size) :
    (∀ e ∈ (decompress_deflate env).trace,
      e.isCtxStart = false ∧ e.isRegionStep = false ∧ e.isHandleAcquire = false ∧
      e.isSubmit = false) ∧
    bytes_written (decompress_deflate env).trace = 0 ∧
    (∀ r m, Event.get_max_buf_size r m ∈ (decompress_deflate env).trace →
      Event.fopen true ∈ (decompress_deflate env).trace) := by
  simp only [decompress_deflate, destroy_resources_eq, close_file_eq, teardownSteps, h]
  split_ifs <;>
    simp_all [Event.isCtxStart, Event.isRegionStep, Event.isHandleAcquire, Event.isSubmit,
      bytes_written]

/-- C6: whenever `decompress_deflate` calls `submit_decompress_deflate_task`, the
calls made before it include a successful context start, a successful
set-range and start of both regions, the successful acquisition of the source
handle over `(file_data, file_size)` with its data length set to `file_size`,
the successful query of `max_buf_size` and the successful acquisition of the
destination handle with that capacity; moreover `file_size ≤ max_buf_size`,
and submit is called at most once. -/
theorem submit_preconditions (env : Env) :
    ((decompress_deflate env).trace.any Event.isSubmit = true →
      Event.doca_ctx_start DOCA_SUCCESS ∈ beforeSubmit (decompress_deflate env).trace ∧
      Event.doca_mmap_set_memrange Mmap.src_mmap Ptr.file_data env.file_size DOCA_SUCCESS ∈
        beforeSubmit (decompress_deflate env).trace ∧
      Event.doca_mmap_start Mmap.src_mmap DOCA_SUCCESS ∈
        beforeSubmit (decompress_deflate env).trace ∧
      Event.doca_mmap_set_memrange Mmap.dst_mmap Ptr.dst_buffer env.max_buf_size
        DOCA_SUCCESS ∈ beforeSubmit (decompress_deflate env).trace ∧
      Event.doca_mmap_start Mmap.dst_mmap DOCA_SUCCESS ∈
        beforeSubmit (decompress_deflate env).trace ∧
      Event.doca_buf_inventory_buf_get_by_addr Mmap.src_mmap Ptr.file_data env.file_size
        Handle.src_doca_buf DOCA_SUCCESS ∈ beforeSubmit (decompress_deflate env).trace ∧
      Event.doca_buf_set_data Handle.src_doca_buf Ptr.file_data env.file_size DOCA_SUCCESS ∈
        beforeSubmit (decompress_deflate env).trace ∧
      Event.get_max_buf_size DOCA_SUCCESS env.max_buf_size ∈
        beforeSubmit (decompress_deflate env).trace ∧
      Event.doca_buf_inventory_buf_get_by_addr Mmap.dst_mmap Ptr.dst_buffer env.max_buf_size
        Handle.dst_doca_buf DOCA_SUCCESS ∈ beforeSubmit (decompress_deflate env).trace ∧
      env.file_size ≤ env.max_buf_size) ∧
    ((decompress_deflate env).trace.filter Event.isSubmit).length ≤ 1 := by
  obtain ⟨n, hn, hc, ho⟩ := decompress_deflate_path env
  rw [ho]
  interval_cases n <;>
    simp [stopsAt, passes] at hc <;>
    simp [pathOut, forwardCalls, teardownSteps, Event.isSubmit, beforeSubmit, List.filter,
      List.takeWhile, hc]

/-- C7 (evaluation at the failing input): when `fopen` returns NULL,
`decompress_deflate` returns at once, having made no other call, and the status
it returns is `DOCA_ERROR_NO_MEMORY`, the very status it reports when the
scratch `calloc` fails; it is not `DOCA_ERROR_IO_FAILED`. -/
theorem fopen_failure_returns_no_memory (env : Env) :
    decompress_deflate { env with fopen_ok := false } =
      ⟨DOCA_ERROR_NO_MEMORY, [Event.fopen false]⟩ ∧
    (decompress_deflate { okEnv 3 8 5 with calloc_ok := false }).result =
      DOCA_ERROR_NO_MEMORY ∧
    DOCA_ERROR_NO_MEMORY ≠ DOCA_ERROR_IO_FAILED := by
  refine ⟨?_, by decide, by decide⟩
  simp [decompress_deflate]

/-- C8 (the claim as stated fails): with every call succeeding, the scratch
block is acquired before the destination region is started, yet the region is
not released before (nor together with) the scratch block: `free` runs before
`destroy_compress_resources`, inside which the regions are stopped. -/
theorem scratch_freed_before_regions_stop :
    acquiredBefore (decompress_deflate (okEnv 3 8 5)).trace Resource.scratch
      Resource.dst_region = true ∧
    releasedNotAfter (decompress_deflate (okEnv 3 8 5)).trace Resource.dst_region
      Resource.scratch = false ∧
    releasedBefore (decompress_deflate (okEnv 3 8 5)).trace Resource.scratch
      Resource.dst_region = true := by
  decide

/-- C8 (amended): for any two resources with `a` acquired before `b` on a path
of `decompress_deflate`, other than the scratch block followed by a region, the
call releasing `b` comes strictly before the call releasing `a`, or both are
released inside the one call of `destroy_compress_resources`; for the scratch
block followed by a region the order is the other way round: the block is freed
strictly before the call that stops the region. -/
theorem teardown_reverse_except_scratch (env : Env) (a b : Resource)
    (h : acquiredBefore (decompress_deflate env).trace a b = true) :
    (scratchThenRegion a b = false →
      releasedNotAfter (decompress_deflate env).trace b a = true ∧
      (a.releasedWith = b.releasedWith ∨
        releasedBefore (decompress_deflate env).trace b a = true)) ∧
    (scratchThenRegion a b = true →
      releasedBefore (decompress_deflate env).trace a b = true) := by
  obtain ⟨n, hn, hc, ho⟩ := decompress_deflate_path env
  rw [ho] at h ⊢
  simp only [acquiredBefore, releasedBefore, releasedNotAfter] at h ⊢
  generalize hA : acquisitions (pathOut env n).trace = A at h ⊢
  generalize hR : releases (pathOut env n).trace = R at h ⊢
  revert h
  interval_cases n <;>
    simp [stopsAt, passes] at hc <;>
    simp [acquisitions, releases, pathOut, forwardCalls, teardownSteps, Event.acquires,
      Event.releases, hc] at hA hR <;>
    subst hA <;> subst hR <;> cases a <;> cases b <;> decide

/-- C10: over any call of `decompress_deflate`, every resource is successfully
acquired at most once; a teardown call is made on it exactly once if it is one
of the five owned resources (output file, compress resources, scratch block,
source handle, destination handle) and was acquired, and never otherwise; and
that teardown call comes after the successful acquisition. -/
theorem resource_balance (env : Env) (a : Resource) :
    acquireCalls (decompress_deflate env).trace a ≤ 1 ∧
    releaseCalls (decompress_deflate env).trace a =
      (if a ∈ ownedResources ∧ acquired (decompress_deflate env).trace a = true
        then 1 else 0) ∧
    (0 < releaseCalls (decompress_deflate env).trace a →
      releasedAfterAcquired (decompress_deflate env).trace a = true) := by
  obtain ⟨n, hn, hc, ho⟩ := decompress_deflate_path env
  rw [ho]
  delta acquireCalls releaseCalls acquired releasedAfterAcquired
  generalize hA : acquisitions (pathOut env n).trace = A
  generalize hR : releases (pathOut env n).trace = R
  interval_cases n <;>
    simp [stopsAt, passes] at hc <;>
    simp [acquisitions, releases, pathOut, forwardCalls, teardownSteps, Event.acquires,
      Event.releases, hc] at hA hR <;>
    subst hA <;> subst hR <;> cases a <;> decide

/-- Witness for C2: the submit call fails and two later teardown steps fail too;
the submit failure is what `decompress_deflate` returns. -/
theorem teardown_keeps_first_failure_witness :
    reachesSubmit envSubmitFails ∧
    (decompress_deflate envSubmitFails).result =
      DOCA_ERROR_IO_FAILED :=
  ⟨by decide,
   (teardown_keeps_first_failure envSubmitFails).2.2.2.1
      (by decide) (by decide)⟩

/-- Witness for C3: with every call succeeding both handles are acquired and the
teardown is the full five-step sequence. -/
theorem teardown_sequence_fixed_witness :
    (acquired (decompress_deflate (okEnv 3 8 5)).trace Resource.src_handle = true ∧
      acquired (decompress_deflate (okEnv 3 8 5)).trace Resource.dst_handle = true) ∧
    (decompress_deflate (okEnv 3 8 5)).trace.filter Event.isTeardown =
      teardownSteps (okEnv 3 8 5) :=
  ⟨by decide, (teardown_sequence_fixed (okEnv 3 8 5)).1 (by decide)⟩

/-- Witness for C4: the context start fails with `DOCA_ERROR_INITIALIZATION` and
the resource destruction fails too; the function returns the former. -/
theorem ctx_start_failure_short_circuits_witness :
    Event.doca_ctx_start DOCA_ERROR_INITIALIZATION ∈
      (decompress_deflate envCtxStartFails).trace ∧
    (decompress_deflate envCtxStartFails).result = DOCA_ERROR_INITIALIZATION :=
  ⟨by decide,
   (ctx_start_failure_short_circuits envCtxStartFails
      DOCA_ERROR_INITIALIZATION (by decide) (by decide)).2.2.2⟩

/-- Witness for C5: a 9-byte input against a maximum of 8 writes no byte. -/
theorem oversized_input_never_submits_witness :
    (okEnv 9 8 5).file_size > (okEnv 9 8 5).max_buf_size ∧
    bytes_written (decompress_deflate (okEnv 9 8 5)).trace = 0 :=
  ⟨by decide, (oversized_input_never_submits (okEnv 9 8 5) (by decide)).2.1⟩

/-- Witness for C6: with every call succeeding the submit call is made, after a
successful context start and with an input that fits. -/
theorem submit_preconditions_witness :
    (decompress_deflate (okEnv 3 8 5)).trace.any Event.isSubmit = true ∧
    Event.doca_ctx_start DOCA_SUCCESS ∈ beforeSubmit (decompress_deflate (okEnv 3 8 5)).trace ∧
    (okEnv 3 8 5).file_size ≤ (okEnv 3 8 5).max_buf_size :=
  ⟨by decide,
   ((submit_preconditions (okEnv 3 8 5)).1 (by decide)).1,
   ((submit_preconditions (okEnv 3 8 5)).1 (by decide)).2.2.2.2.2.2.2.2.2⟩

/-- Witness for C8 (amended): with every call succeeding the source handle is
acquired before the destination handle and released after it. -/
theorem teardown_reverse_except_scratch_witness :
    acquiredBefore (decompress_deflate (okEnv 3 8 5)).trace Resource.src_handle
      Resource.dst_handle = true ∧
    releasedNotAfter (decompress_deflate (okEnv 3 8 5)).trace Resource.dst_handle
      Resource.src_handle = true :=
  ⟨by decide,
   ((teardown_reverse_except_scratch (okEnv 3 8 5) Resource.src_handle Resource.dst_handle
      (by decide)).1 (by decide)).1⟩

/-- Witness for C10: with every call succeeding the scratch block is freed, after
its allocation. -/
theorem resource_balance_witness :
    0 < releaseCalls (decompress_deflate (okEnv 3 8 5)).trace Resource.scratch ∧
    releasedAfterAcquired (decompress_deflate (okEnv 3 8 5)).trace Resource.scratch = true :=
  ⟨by decide, (resource_balance (okEnv 3 8 5) Resource.scratch).2.2 (by decide)⟩

end Decompress

namespace CompressMain

/-- C9: `main` of the compress CLI returns `EXIT_SUCCESS` exactly when all eight
forward steps return `DOCA_SUCCESS`; otherwise it returns `EXIT_FAILURE`, which
is non-zero; and the forward steps it executes are those up to and including
the first one that fails, so no forward step runs after a failure. -/
theorem main_exit_status (env : Env) :
    ((main env).exit_status = EXIT_SUCCESS ↔ allSucceed env) ∧
    (¬ allSucceed env →
      (main env).exit_status = EXIT_FAILURE ∧ (main env).exit_status ≠ 0) ∧
    (main env).trace.filter Event.isForward = throughFirstFailure (forwardSteps env) := by
  by_cases h0 : env.log_standard = DOCA_SUCCESS
  swap
  · simp [main, sample_exit, argp_cleanup, data_file_cleanup, allSucceed, forwardSteps,
      throughFirstFailure, Event.status, Event.isForward, EXIT_SUCCESS, EXIT_FAILURE, List.filter,
      h0]
  by_cases h1 : env.log_sdk = DOCA_SUCCESS
  swap
  · simp [main, sample_exit, argp_cleanup, data_file_cleanup, allSucceed, forwardSteps,
      throughFirstFailure, Event.status, Event.isForward, EXIT_SUCCESS, EXIT_FAILURE, List.filter,
      h0, h1]
  by_cases h2 : env.log_level = DOCA_SUCCESS
  swap
  · simp [main, sample_exit, argp_cleanup, data_file_cleanup, allSucceed, forwardSteps,
      throughFirstFailure, Event.status, Event.isForward, EXIT_SUCCESS, EXIT_FAILURE, List.filter,
      h0, h1, h2]
  by_cases h3 : env.argp_init = DOCA_SUCCESS
  swap
  · simp [main, sample_exit, argp_cleanup, data_file_cleanup, allSucceed, forwardSteps,
      throughFirstFailure, Event.status, Event.isForward, EXIT_SUCCESS, EXIT_FAILURE, List.filter,
      h0, h1, h2, h3]
  by_cases h4 : env.register_params = DOCA_SUCCESS
  swap
  · simp [main, sample_exit, argp_cleanup, data_file_cleanup, allSucceed, forwardSteps,
      throughFirstFailure, Event.status, Event.isForward, EXIT_SUCCESS, EXIT_FAILURE, List.filter,
      h0, h1, h2, h3, h4]
  by_cases h5 : env.argp_start = DOCA_SUCCESS
  swap
  · simp [main, sample_exit, argp_cleanup, data_file_cleanup, allSucceed, forwardSteps,
      throughFirstFailure, Event.status, Event.isForward, EXIT_SUCCESS, EXIT_FAILURE, List.filter,
      h0, h1, h2, h3, h4, h5]
  by_cases h6 : env.read_file = DOCA_SUCCESS
  swap
  · simp [main, sample_exit, argp_cleanup, data_file_cleanup, allSucceed, forwardSteps,
      throughFirstFailure, Event.status, Event.isForward, EXIT_SUCCESS, EXIT_FAILURE, List.filter,
      h0, h1, h2, h3, h4, h5, h6]
  by_cases h7 : env.compress_deflate = DOCA_SUCCESS
  swap
  · cases hf : env.file_data_nonnull <;>
    simp [main, sample_exit, argp_cleanup, data_file_cleanup, allSucceed, forwardSteps,
      throughFirstFailure, Event.status, Event.isForward, EXIT_SUCCESS, EXIT_FAILURE, List.filter,
      h0, h1, h2, h3, h4, h5, h6, h7, hf]
  cases hf : env.file_data_nonnull <;>
  simp [main, sample_exit, argp_cleanup, data_file_cleanup, allSucceed, forwardSteps,
      throughFirstFailure, Event.status, Event.isForward, EXIT_SUCCESS, EXIT_FAILURE, List.filter,
    h0, h1, h2, h3, h4, h5, h6, h7, hf]

/-- Witness for C9: a run in which `read_file` fails exits with `EXIT_FAILURE`. -/
theorem main_exit_status_witness :
    ¬ allSucceed { okEnv with read_file := DOCA_ERROR_NOT_FOUND } ∧
    (main { okEnv with read_file := DOCA_ERROR_NOT_FOUND }).exit_status = EXIT_FAILURE ∧
    (main { okEnv with read_file := DOCA_ERROR_NOT_FOUND }).exit_status ≠ 0 :=
  ⟨by decide,
   (main_exit_status { okEnv with read_file := DOCA_ERROR_NOT_FOUND }).2.1 (by decide)⟩

end CompressMain
